import Mathlib

/-!
Verification of the prompt-chaining script
`Agentic Ai Design Pattrens/02_prompt_chaining_langgraph.py`.

The script defines two langgraph tasks, `task1` and `task2`, each invoking a
model client with a fixed prompt, and an entrypoint `main` that runs `task1`,
blocks on its result, then runs `task2`, blocks on its result, prints one
formatted line and returns the concatenation of the two response contents.

We embed the run of `main` as a function of an abstract model client
`ModelClient : String → Except RemoteCallError ModelResponse`.  The embedding
is instrumented: `RunResult` records, besides the outcome (returned string or
propagated error), the list of prompts with which the client was invoked, in
order of initiation, and the list of lines printed to standard output.
-/

namespace PromptChaining

/-- A model response; only the `content` field is used by the script. -/
structure ModelResponse where
  content : String
deriving Repr, DecidableEq

/-- Failure modes of a remote model call (network, authentication, malformed
response), per the error taxonomy; the script treats them uniformly. -/
inductive RemoteCallError where
  | network : RemoteCallError
  | auth : RemoteCallError
  | malformed : RemoteCallError
deriving Repr, DecidableEq

/-- The model client capability: maps a prompt to a response or a failure. -/
abbrev ModelClient := String → Except RemoteCallError ModelResponse

/-- Prompt A, the fixed string passed to `model.invoke` in `task1`. -/
def promptA : String := "What is up?"

/-- Prompt B, the fixed string passed to `model.invoke` in `task2`. -/
def promptB : String := "Hello there, how are you?"

/-- `task1` from the source: `return model.invoke("What is up?")`. -/
def task1 (model : ModelClient) : Except RemoteCallError ModelResponse :=
  model promptA

/-- `task2` from the source: `return model.invoke("Hello there, how are you?")`. -/
def task2 (model : ModelClient) : Except RemoteCallError ModelResponse :=
  model promptB

/-- Observable result of one run of the entrypoint: the prompts sent to the
model client in order of initiation, the lines printed to standard output, and
the returned string or the propagated error. -/
structure RunResult where
  calls : List String
  printed : List String
  outcome : Except RemoteCallError String
deriving Repr

/-- The entrypoint `main` from the source.  It runs `task1` and blocks on its
result; an exception from the model call propagates, so on failure of A the
run aborts with only prompt A initiated and nothing printed.  Otherwise it
runs `task2` and blocks likewise.  With both results in hand it prints
`Task 1: <A content>, Task 2: <B content>` and returns
`<A content> <B content>`.  The `input` argument is never used. -/
def main (model : ModelClient) (input : String) : RunResult :=
  match task1 model with
  | Except.error e =>
      { calls := [promptA], printed := [], outcome := Except.error e }
  | Except.ok task1_result =>
      match task2 model with
      | Except.error e =>
          { calls := [promptA, promptB], printed := [],
            outcome := Except.error e }
      | Except.ok task2_result =>
          { calls := [promptA, promptB]
          , printed := ["Task 1: " ++ task1_result.content ++ ", Task 2: " ++
              task2_result.content]
          , outcome :=
              Except.ok (task1_result.content ++ " " ++ task2_result.content) }

/-- Startup configuration failure: the API-key environment variable is absent. -/
inductive ConfigurationError where
  | missingApiKey : ConfigurationError
deriving Repr, DecidableEq

/-- A whole-program failure: configuration failure at startup, or a remote
call failure during the run. -/
inductive RunError where
  | config : ConfigurationError → RunError
  | remote : RemoteCallError → RunError
deriving Repr, DecidableEq

/-- Observable result of the whole program (startup plus one run). -/
structure ProgramResult where
  calls : List String
  printed : List String
  outcome : Except RunError String
deriving Repr

/-- Modelled from the spec: the model-client construction at startup
(`ChatGoogleGenerativeAI(model=..., api_key=os.getenv("GEMINI_API_KEY"))`)
lives in an external library whose code is not in this repository; per the
spec it reads the API key once at startup and fails with `ConfigurationError`
if the key is absent and the client requires it.  Given the key it yields the
remote-call capability. -/
def startup (apiKey : Option String)
    (remote : String → Except RemoteCallError ModelResponse) :
    Except ConfigurationError ModelClient :=
  match apiKey with
  | none => Except.error ConfigurationError.missingApiKey
  | some _ => Except.ok remote

/-- The whole program: construct the model client at startup (module load),
then run the entrypoint.  If startup fails, no model call is ever initiated
and nothing is printed. -/
def program (apiKey : Option String)
    (remote : String → Except RemoteCallError ModelResponse)
    (input : String) : ProgramResult :=
  match startup apiKey remote with
  | Except.error e =>
      { calls := [], printed := [], outcome := Except.error (RunError.config e) }
  | Except.ok model =>
      let r := main model input
      { calls := r.calls, printed := r.printed
      , outcome :=
          match r.outcome with
          | Except.ok s => Except.ok s
          | Except.error e => Except.error (RunError.remote e) }

/-- A client that answers every prompt successfully, for concrete runs. -/
def okClient : ModelClient := fun _ => Except.ok { content := "ok" }

/-- A client that fails on every prompt, for concrete runs. -/
def failClient : ModelClient := fun _ => Except.error RemoteCallError.network

/-- A client that succeeds on prompt A and fails on prompt B. -/
def failBClient : ModelClient := fun p =>
  if p = promptB then Except.error RemoteCallError.network
  else Except.ok { content := "ok" }

/-- An apostrophe, as a one-character string. -/
def apos : String := String.singleton (Char.ofNat 39)

/-- The client of the spec example: `A.content = "All good!"`,
`B.content = "I'm fine, thanks."`. -/
def exampleClient : ModelClient := fun p =>
  if p = promptA then Except.ok { content := "All good!" }
  else if p = promptB then
    Except.ok { content := "I" ++ apos ++ "m fine, thanks." }
  else Except.error RemoteCallError.malformed

end PromptChaining

namespace PromptChaining

/-- C1: for every successful run (both model calls return a response), the
string returned by the entrypoint `main` equals response A's content, one
space, then response B's content — never swapped, never missing the
separator. -/
theorem C1_return_is_A_space_B (model : ModelClient) (input : String)
    (a b : ModelResponse)
    (ha : model promptA = Except.ok a) (hb : model promptB = Except.ok b) :
    (main model input).outcome = Except.ok (a.content ++ " " ++ b.content) := by
  simp [main, task1, task2, ha, hb]

/-- Witness for C1 at the all-succeeding client. -/
theorem C1_return_is_A_space_B_witness :
    (main okClient "HHH").outcome = Except.ok ("ok" ++ " " ++ "ok") :=
  C1_return_is_A_space_B okClient "HHH" { content := "ok" } { content := "ok" }
    rfl rfl

/-- C2: for every successful run, `main` prints exactly one line, namely
`Task 1: ` ++ A's content ++ `, Task 2: ` ++ B's content, before returning. -/
theorem C2_printed_line (model : ModelClient) (input : String)
    (a b : ModelResponse)
    (ha : model promptA = Except.ok a) (hb : model promptB = Except.ok b) :
    (main model input).printed =
      ["Task 1: " ++ a.content ++ ", Task 2: " ++ b.content] := by
  simp [main, task1, task2, ha, hb]

/-- Witness for C2 at the all-succeeding client. -/
theorem C2_printed_line_witness :
    (main okClient "HHH").printed = ["Task 1: " ++ "ok" ++ ", Task 2: " ++ "ok"] :=
  C2_printed_line okClient "HHH" { content := "ok" } { content := "ok" } rfl rfl

/-- C3: if either model call fails, the failure propagates as the run's
outcome and nothing at all is printed — not even a partial line. -/
theorem C3_failure_propagates_no_output (model : ModelClient) (input : String)
    (h : (∃ e, model promptA = Except.error e) ∨
         (∃ e, model promptB = Except.error e)) :
    (main model input).printed = [] ∧
      ∃ e, (main model input).outcome = Except.error e := by
  cases hA : model promptA with
  | error e => exact ⟨by simp [main, task1, hA], e, by simp [main, task1, hA]⟩
  | ok a =>
    cases hB : model promptB with
    | error e =>
      exact ⟨by simp [main, task1, task2, hA, hB], e,
        by simp [main, task1, task2, hA, hB]⟩
    | ok b =>
      exfalso
      rcases h with ⟨e, he⟩ | ⟨e, he⟩
      · rw [hA] at he; exact Except.noConfusion he
      · rw [hB] at he; exact Except.noConfusion he

/-- Witness for C3 at the all-failing client. -/
theorem C3_failure_propagates_no_output_witness :
    (main failClient "HHH").printed = [] ∧
      ∃ e, (main failClient "HHH").outcome = Except.error e :=
  C3_failure_propagates_no_output failClient "HHH"
    (Or.inl ⟨RemoteCallError.network, rfl⟩)

/-- C4: the `input` argument never affects the run — for identical model
clients and any two inputs, the calls, the printed line and the returned
string are identical. -/
theorem C4_output_independent_of_input (model : ModelClient)
    (input₁ input₂ : String) :
    main model input₁ = main model input₂ := rfl

/-- C5 counterexample: the claim says that on EVERY run the model client is
invoked with both fixed prompts; but on a run whose call for prompt A fails,
only prompt A is ever sent, so the calls are not `[promptA, promptB]`. -/
theorem C5_counterexample :
    ¬ (main failClient "HHH").calls = [promptA, promptB] := by
  simp [main, task1, failClient, promptA, promptB]

/-- C5 (amended): on every run the prompts sent to the model client form a
prefix of `[promptA, promptB]` — only the two fixed strings, A initiated
first — and whenever the call for prompt A succeeds, the client is invoked
with exactly prompt A then prompt B. -/
theorem C5_fixed_prompts_A_before_B (model : ModelClient) (input : String) :
    ((main model input).calls = [promptA] ∨
      (main model input).calls = [promptA, promptB]) ∧
    (∀ a, model promptA = Except.ok a →
      (main model input).calls = [promptA, promptB]) := by
  cases hA : model promptA with
  | error e =>
    exact ⟨Or.inl (by simp [main, task1, hA]),
      fun a ha => Except.noConfusion ha⟩
  | ok a =>
    cases hB : model promptB with
    | error e =>
      exact ⟨Or.inr (by simp [main, task1, task2, hA, hB]),
        fun _ _ => by simp [main, task1, task2, hA, hB]⟩
    | ok b =>
      exact ⟨Or.inr (by simp [main, task1, task2, hA, hB]),
        fun _ _ => by simp [main, task1, task2, hA, hB]⟩

/-- Witness for C5 (amended) at the all-succeeding client. -/
theorem C5_fixed_prompts_A_before_B_witness :
    (main okClient "HHH").calls = [promptA, promptB] :=
  (C5_fixed_prompts_A_before_B okClient "HHH").2 { content := "ok" } rfl

/-- C6: if the API-key environment variable is absent at startup, the program
fails with a `ConfigurationError` and no model-client invocation is ever
attempted (the client construction, modelled from the spec, is external
library code). -/
theorem C6_missing_key_fails_before_any_call
    (remote : String → Except RemoteCallError ModelResponse) (input : String) :
    (program none remote input).outcome =
      Except.error (RunError.config ConfigurationError.missingApiKey) ∧
    (program none remote input).calls = [] := by
  exact ⟨rfl, rfl⟩

/-- C7: on the spec's example responses (`All good!` and `Im fine, thanks.`
with an apostrophe after the `I`), the returned string and the printed line
are exactly as the spec writes them. -/
theorem C7_spec_example :
    (main exampleClient "HHH").outcome =
      Except.ok ("All good! I" ++ apos ++ "m fine, thanks.") ∧
    (main exampleClient "HHH").printed =
      ["Task 1: All good!, Task 2: I" ++ apos ++ "m fine, thanks."] := by
  constructor <;> rfl

/-- C8: no output escapes before both results are in: if a run printed
anything or returned a string, then both model calls returned a response. -/
theorem C8_output_only_after_both_joined (model : ModelClient) (input : String)
    (h : (main model input).printed ≠ [] ∨
         ∃ s, (main model input).outcome = Except.ok s) :
    (∃ a, model promptA = Except.ok a) ∧ ∃ b, model promptB = Except.ok b := by
  cases hA : model promptA with
  | error e =>
    exfalso
    rcases h with h | ⟨s, hs⟩
    · exact h (by simp [main, task1, hA])
    · rw [show (main model input).outcome = Except.error e from
        by simp [main, task1, hA]] at hs
      exact Except.noConfusion hs
  | ok a =>
    cases hB : model promptB with
    | error e =>
      exfalso
      rcases h with h | ⟨s, hs⟩
      · exact h (by simp [main, task1, task2, hA, hB])
      · rw [show (main model input).outcome = Except.error e from
          by simp [main, task1, task2, hA, hB]] at hs
        exact Except.noConfusion hs
    | ok b => exact ⟨⟨a, rfl⟩, b, rfl⟩

/-- Witness for C8 at the all-succeeding client. -/
theorem C8_output_only_after_both_joined_witness :
    (∃ a, okClient promptA = Except.ok a) ∧
      ∃ b, okClient promptB = Except.ok b :=
  C8_output_only_after_both_joined okClient "HHH"
    (Or.inr ⟨"ok" ++ " " ++ "ok", rfl⟩)

/-- C9: no retry and no recovery within a run: the list of prompts sent has
no duplicate (each prompt goes out at most once), a failure of the call for
prompt A aborts the run immediately with only prompt A sent, and a failure of
the call for prompt B aborts the run with the two prompts sent once each. -/
theorem C9_no_retry_first_failure_aborts (model : ModelClient)
    (input : String) :
    (main model input).calls.Nodup ∧
    (∀ e, model promptA = Except.error e →
      (main model input).calls = [promptA] ∧
        (main model input).outcome = Except.error e) ∧
    (∀ a e, model promptA = Except.ok a → model promptB = Except.error e →
      (main model input).calls = [promptA, promptB] ∧
        (main model input).outcome = Except.error e) := by
  refine ⟨?_, fun e he => ?_, fun a e ha he => ?_⟩
  · cases hA : model promptA with
    | error e =>
      rw [show (main model input).calls = [promptA] from
        by simp [main, task1, hA]]
      decide
    | ok a =>
      cases hB : model promptB with
      | error e =>
        rw [show (main model input).calls = [promptA, promptB] from
          by simp [main, task1, task2, hA, hB]]
        decide
      | ok b =>
        rw [show (main model input).calls = [promptA, promptB] from
          by simp [main, task1, task2, hA, hB]]
        decide
  · exact ⟨by simp [main, task1, he], by simp [main, task1, he]⟩
  · exact ⟨by simp [main, task1, task2, ha, he],
      by simp [main, task1, task2, ha, he]⟩

/-- Witness for C9 at the client that succeeds on A and fails on B. -/
theorem C9_no_retry_first_failure_aborts_witness :
    (main failBClient "HHH").calls = [promptA, promptB] ∧
      (main failBClient "HHH").outcome =
        Except.error RemoteCallError.network :=
  (C9_no_retry_first_failure_aborts failBClient "HHH").2.2
    { content := "ok" } RemoteCallError.network
    (by simp [failBClient, promptA, promptB]) (by simp [failBClient])

/-- C10: strictly sequential chaining: prompt B is sent only on runs where
the call for prompt A has already completed successfully — if prompt B occurs
in the call trace, then prompt A returned a response and the trace is exactly
prompt A followed by prompt B. -/
theorem C10_B_only_after_A_succeeds (model : ModelClient) (input : String)
    (h : promptB ∈ (main model input).calls) :
    ∃ a, model promptA = Except.ok a ∧
      (main model input).calls = [promptA, promptB] := by
  cases hA : model promptA with
  | error e =>
    exfalso
    rw [show (main model input).calls = [promptA] from
      by simp [main, task1, hA]] at h
    simp [promptA, promptB] at h
  | ok a =>
    cases hB : model promptB with
    | error e => exact ⟨a, rfl, by simp [main, task1, task2, hA, hB]⟩
    | ok b => exact ⟨a, rfl, by simp [main, task1, task2, hA, hB]⟩

/-- Witness for C10 at the all-succeeding client. -/
theorem C10_B_only_after_A_succeeds_witness :
    ∃ a, okClient promptA = Except.ok a ∧
      (main okClient "HHH").calls = [promptA, promptB] :=
  C10_B_only_after_A_succeeds okClient "HHH" (by simp [main, task1, task2, okClient])

end PromptChaining
